import Mathlib

set_option maxRecDepth 8192

/-!
Shallow embedding of the LiteResearch retrieval pipeline
(backend/literesearch/web_retriever.py, backend/literesearch/literesearcher.py,
backend/literesearch/constants.py) and proofs of the specified properties.

External collaborators (the Tavily client, the DuckDuckGo client, the HTTP
session, the BeautifulSoup extraction, the langchain splitter/embedding filter)
are modelled as explicit function parameters (oracles); the repository's own
control flow around them is translated directly from the source.
-/

/-! Constants from backend/literesearch/constants.py. -/

namespace constants

def DEFAULT_TIMEOUT : Nat := 4

def DEFAULT_CONCURRENCY_LIMIT : Nat := 5

def DEFAULT_MAX_WORKERS : Nat := 20

def MIN_CONTENT_LENGTH : Nat := 100

def DEFAULT_MAX_SEARCH_RESULTS_PER_QUERY : Nat := 5

end constants

/-!
Scheduled fan-out/fan-in.

Both asyncio.gather (literesearcher.py lines 161-165) and
ThreadPoolExecutor.map (web_retriever.py lines 203-204) run one task per input
element; tasks complete in an arbitrary order, but each result is stored in the
slot of its input index and the combined result is read back in input-index
order.  A "schedule" is the order in which task indices complete; correctness
statements quantify over every schedule that is a permutation of the indices.
-/

/-- Completion log of a scheduled batch: the tasks finish in the order given
by the schedule, and each finished task records its input index together with
the value computed from its own input. -/
def runTasks (f : α → β) (inputs : List α) (schedule : List Nat) :
    List (Nat × β) :=
  schedule.filterMap (fun i => (inputs[i]?).map (fun x => (i, f x)))

/-- Collect the per-index results of a scheduled batch back in input-index
order, as asyncio.gather and ThreadPoolExecutor.map do. -/
def gatherScheduled (f : α → β) (inputs : List α) (schedule : List Nat) :
    List β :=
  (List.range inputs.length).filterMap
    (fun i => ((runTasks f inputs schedule).find? (fun p => p.1 == i)).map
      (fun p => p.2))

/-!
TavilySearch (web_retriever.py lines 33-88).

The Tavily client and the DuckDuckGo client are outside the repository; they
are modelled as oracles mapping the arguments the code passes them to either a
raised exception (Except.error) or a returned value (Except.ok).  The class's
own exception type TavilyAPIError is distinguished from foreign exceptions
because the source handles the two differently (lines 74-76).
-/

/-- One result as returned by the Tavily client: the code reads fields
"url" and "content" of each entry of results["results"] (line 73). -/
structure TavilyResult where
  url : String
  content : String
deriving DecidableEq

/-- One search result in the uniform shape the module returns
(href/body, line 73; the DuckDuckGo text API already uses this shape). -/
structure SearchResult where
  href : String
  body : String
deriving DecidableEq

/-- Python truthiness of an optional string: None and the empty string are
falsy (used by line 51's "or" chain and line 52's "if not api_key"). -/
def pyTruthy (s : Option String) : Bool :=
  match s with
  | none => false
  | some t => t ≠ ""

/-- TavilySearch._get_api_key (lines 44-54): headers.get("tavily_api_key") or
os.environ.get("TAVILY_API_KEY"); raises TavilyAPIError when the result is
falsy.  headers_key and env_key are the two lookups. -/
def get_api_key (headers_key env_key : Option String) : Except String String :=
  let api_key := if pyTruthy headers_key then headers_key else env_key
  match api_key with
  | some k =>
      if k = "" then
        Except.error "Tavily API key not found. Please set TAVILY_API_KEY environment variable."
      else Except.ok k
  | none =>
      Except.error "Tavily API key not found. Please set TAVILY_API_KEY environment variable."

/-- The state of a successfully constructed TavilySearch instance
(lines 36-42). -/
structure TavilySearch where
  query : String
  api_key : String
  topic : String
deriving DecidableEq

/-- TavilySearch.__init__ (lines 36-42): resolves the API key via
_get_api_key, which raises TavilyAPIError before any client is built when the
key is missing. -/
def TavilySearch.init (query : String) (headers_key env_key : Option String)
    (topic : String) : Except String TavilySearch :=
  match get_api_key headers_key env_key with
  | Except.error e => Except.error e
  | Except.ok k => Except.ok { query := query, api_key := k, topic := topic }

/-- TavilySearch.search (lines 56-88).  tavilyApi models
self.client.search(query, search_depth, max_results, topic) restricted to the
arguments the code varies, returning the results["results"] list or raising;
ddgApi models DDGS().text(query, region, max_results).  Control flow of the
source: an empty primary result list raises TavilyAPIError, which the
"except TavilyAPIError: raise" clause re-raises to the caller; any other
exception from the primary falls back to DuckDuckGo with the same query and
max_results; a DuckDuckGo failure yields the empty list, and an empty
DuckDuckGo result is returned as-is. -/
def TavilySearch.search
    (tavilyApi : String → Nat → String → Except String (List TavilyResult))
    (ddgApi : String → Nat → Except String (List SearchResult))
    (ts : TavilySearch) (max_results : Nat) : Except String (List SearchResult) :=
  match tavilyApi ts.query max_results ts.topic with
  | Except.ok sources =>
      if sources.isEmpty then
        Except.error "Tavily API search found no results."
      else
        Except.ok (sources.map (fun obj => { href := obj.url, body := obj.content }))
  | Except.error _ =>
      match ddgApi ts.query max_results with
      | Except.ok results => Except.ok results
      | Except.error _ => Except.ok []

/-!
BeautifulSoupScraper (web_retriever.py lines 110-171).

The HTTP GET and the BeautifulSoup text extraction are external; they appear
as parameters.  The repository's own logic - the exception handlers, the
content-type gate and the whitespace normalisation - is translated directly.
-/

/-- The parts of an HTTP response the scraper inspects: whether
raise_for_status raises, and the Content-Type header (empty when missing,
line 137's default), plus an abstract payload identifier consumed by the
extraction oracle. -/
structure HttpResponse where
  status_error : Bool
  contentType : String
  body : String
deriving DecidableEq

/-- Whether the character list starts with the given block. -/
def startsWithChars : List Char → List Char → Bool
  | _, [] => true
  | [], _ :: _ => false
  | c :: cs, d :: ds => c == d && startsWithChars cs ds

/-- Python's "pat in s" membership test on character lists: the pattern
occurs at the head or somewhere in the tail. -/
def containsChars (pat : List Char) : List Char → Bool
  | [] => startsWithChars [] pat
  | c :: cs => startsWithChars (c :: cs) pat || containsChars pat cs

/-- Python's "pat in s" substring test for strings. -/
def pyContains (s pat : String) : Bool :=
  containsChars pat.data s.data

/-- Python's str.lower restricted to ASCII, character by character. -/
def pyLower (s : String) : String :=
  String.mk (s.data.map Char.toLower)

/-- The whitespace characters Python's str.strip removes. -/
def isPySpace (c : Char) : Bool :=
  c == ' ' || c == '\t' || c == '\n' || c == '\r' ||
    c == Char.ofNat 11 || c == Char.ofNat 12

/-- Drop leading Python whitespace from a character list. -/
def dropLeadingSpace : List Char → List Char
  | [] => []
  | c :: cs => if isPySpace c then dropLeadingSpace cs else c :: cs

/-- Python's str.strip on a character list: drop whitespace at both ends. -/
def stripChars (l : List Char) : List Char :=
  dropLeadingSpace ((dropLeadingSpace l.reverse).reverse)

/-- Split a character list at every occurrence of a single character. -/
def splitAtChar (sep : Char) : List Char → List (List Char)
  | [] => [[]]
  | c :: cs =>
      if c == sep then [] :: splitAtChar sep cs
      else
        match splitAtChar sep cs with
        | [] => [[c]]
        | h :: t => (c :: h) :: t

/-- Python's line.split("  "): split at every occurrence of two consecutive
spaces. -/
def splitDoubleSpace : List Char → List (List Char)
  | ' ' :: ' ' :: cs => [] :: splitDoubleSpace cs
  | c :: cs =>
      match splitDoubleSpace cs with
      | [] => [[c]]
      | h :: t => (c :: h) :: t
  | [] => [[]]

/-- Whitespace normalisation of lines 149-151: strip every line, split each
line on double spaces, strip the phrases, and join the nonempty chunks with
newlines (str.splitlines modelled on LF boundaries). -/
def normalizeText (raw : String) : String :=
  let lines := (splitAtChar '\n' raw.data).map stripChars
  let chunks := lines.flatMap (fun line => (splitDoubleSpace line).map stripChars)
  String.intercalate "\n"
    ((chunks.filter (fun c => !c.isEmpty)).map (fun c => String.mk c))

/-- BeautifulSoupScraper.scrape (lines 125-158).  getResult models
session.get plus raise_for_status: Except.error covers a network error or
timeout raised by the GET itself.  extract models the BeautifulSoup parse and
_get_content_from_url; Except.error covers any exception raised while
parsing.  The source returns "" on a network error (lines 153-155), on an
HTTP-status error (line 135 raises, caught at line 153), on an
application/pdf Content-Type (lines 137-139, checked on the lower-cased
header), and on any other exception (lines 156-158); otherwise it normalises
the extracted text (lines 148-151). -/
def BeautifulSoupScraper.scrape (getResult : Except String HttpResponse)
    (extract : HttpResponse → Except String String) : String :=
  match getResult with
  | Except.error _ => ""
  | Except.ok response =>
      if response.status_error then ""
      else
        let content_type := pyLower response.contentType
        if pyContains content_type "application/pdf" then ""
        else
          match extract response with
          | Except.error _ => ""
          | Except.ok raw_content => normalizeText raw_content

/-!
Scraper (web_retriever.py lines 174-239) and the configuration object
(literesearch_config.py) to the extent the scraper reads it.
-/

/-- The configuration fields read by the scraping pipeline
(literesearch_config.py lines 57 and 72-75; each constant field is
initialised from the module constant of the same name). -/
structure Config where
  user_agent : String
  DEFAULT_CONCURRENCY_LIMIT : Nat
  MIN_CONTENT_LENGTH : Nat
  DEFAULT_TIMEOUT : Nat
  DEFAULT_MAX_WORKERS : Nat
deriving DecidableEq

/-- Config.__init__'s assignment of the constant fields
(literesearch_config.py lines 72-75). -/
def Config.build (user_agent : String) : Config :=
  { user_agent := user_agent
    DEFAULT_CONCURRENCY_LIMIT := constants.DEFAULT_CONCURRENCY_LIMIT
    MIN_CONTENT_LENGTH := constants.MIN_CONTENT_LENGTH
    DEFAULT_TIMEOUT := constants.DEFAULT_TIMEOUT
    DEFAULT_MAX_WORKERS := constants.DEFAULT_MAX_WORKERS }

/-- One entry of Scraper.run's result list: the dict
{"url": link, "raw_content": content-or-None} built at lines 223-227. -/
structure ScrapeResult where
  url : String
  raw_content : Option String
deriving DecidableEq

/-- The minimum-content-length lookup of line 221:
self.config.MIN_CONTENT_LENGTH if self.config else 100. -/
def Scraper.minLength (config : Option Config) : Nat :=
  match config with
  | some c => c.MIN_CONTENT_LENGTH
  | none => 100

/-- Scraper._extract_data_from_link (lines 207-227).  fetch models
scraper_class(link, session, config).scrape(): Except.error is an exception
escaping the scrape call, caught by the handler at lines 225-227, which turns
it into a None raw_content for this URL alone.  Content shorter than the
minimum length is likewise mapped to None (lines 221-223). -/
def extract_data_from_link (fetch : String → Except String String)
    (min_length : Nat) (link : String) : ScrapeResult :=
  match fetch link with
  | Except.error _ => { url := link, raw_content := none }
  | Except.ok content =>
      if content.length < min_length then { url := link, raw_content := none }
      else { url := link, raw_content := some content }

/-- Scraper.run (lines 194-205): fan the per-link extraction out over the
worker pool (modelled by an arbitrary completion schedule; executor.map
returns results in input order regardless of completion order), then keep
only the entries whose raw_content is not None. -/
def Scraper.run (fetch : String → Except String String) (config : Option Config)
    (urls : List String) (schedule : List Nat) : List ScrapeResult :=
  (gatherScheduled
      (fun link => extract_data_from_link fetch (Scraper.minLength config) link)
      urls schedule).filter (fun r => r.raw_content.isSome)

/-- scrape_urls (lines 230-239): builds a Scraper with the supplied
configuration object and runs it. -/
def scrape_urls (fetch : String → Except String String) (urls : List String)
    (cfg : Config) (schedule : List Nat) : List ScrapeResult :=
  Scraper.run fetch (some cfg) urls schedule

/-!
SearchAPIRetriever and ContextCompressor (web_retriever.py lines 242-335).

The langchain machinery the compressor assembles
(RecursiveCharacterTextSplitter, EmbeddingsFilter,
DocumentCompressorPipeline, ContextualCompressionRetriever) is external
library code; it is modelled by two parameters: split (the chunker, mapping
one document to its chunks, each chunk keeping the document's metadata) and
keep (the embeddings filter's verdict that a chunk's similarity to the query
reaches the threshold).  The pipeline applies the transformers in order -
split everything, then filter - and the compression retriever returns the
empty list without invoking the pipeline when the base retriever yields no
documents.  The repository's own code - the page-to-Document mapping and the
formatting - is translated directly.
-/

/-- A langchain Document as used here: page content plus the title and
source metadata entries. -/
structure Document where
  page_content : String
  title : String
  source : String
deriving DecidableEq

/-- One page dict handed to SearchAPIRetriever: the scrape result dicts have
a url and raw_content and no title, so both lookups default
(lines 256-260 use page.get with default ""). -/
structure Page where
  url : Option String
  raw_content : Option String
  title : Option String
deriving DecidableEq

/-- SearchAPIRetriever.get_relevant_documents (lines 247-263): one Document
per page, page_content from raw_content and metadata from title/url, each
defaulting to the empty string. -/
def SearchAPIRetriever.get_relevant_documents (pages : List Page) :
    List Document :=
  pages.map (fun page =>
    { page_content := page.raw_content.getD ""
      title := page.title.getD ""
      source := page.url.getD "" })

/-- The DocumentCompressorPipeline built at lines 296-302, applied to a
document list: the splitter transformer first, the embeddings filter second. -/
def compressionPipeline (split : Document → List Document)
    (keep : Document → Bool) (docs : List Document) : List Document :=
  (docs.flatMap split).filter keep

/-- The ContextualCompressionRetriever built at lines 303-307, invoked on a
query (line 334): fetch the base documents from SearchAPIRetriever over the
stored pages; when that list is empty the retriever returns [] without
running the compressor, otherwise it returns the pipeline's output. -/
def contextualRetrieverInvoke (split : Document → List Document)
    (keep : Document → Bool) (pages : List Page) : List Document :=
  let docs := SearchAPIRetriever.get_relevant_documents pages
  if docs.isEmpty then [] else compressionPipeline split keep docs

/-- The per-document block rendered by pretty_print_docs (lines 317-320). -/
def formatDoc (d : Document) : String :=
  "Source: " ++ d.source ++ "\n" ++ "Title: " ++ d.title ++ "\n" ++
    "Content: " ++ d.page_content ++ "\n"

/-- ContextCompressor.pretty_print_docs (lines 309-323): render the
documents whose enumeration index is below top_n and join the blocks with
newlines. -/
def pretty_print_docs (docs : List Document) (top_n : Nat) : String :=
  String.intercalate "\n"
    ((docs.enum.filter (fun p => decide (p.1 < top_n))).map (fun p => formatDoc p.2))

/-- ContextCompressor.get_context (lines 325-335): invoke the contextual
compression retriever on the query (query and embeddings are absorbed into
the keep verdict) and pretty-print at most max_results of the returned
documents. -/
def ContextCompressor.get_context (split : Document → List Document)
    (keep : Document → Bool) (documents : List Page) (max_results : Nat) :
    String :=
  pretty_print_docs (contextualRetrieverInvoke split keep documents) max_results

/-!
LiteResearcher.conduct_research (literesearcher.py lines 134-169).

The gather stage (lines 161-165): one task per sub-query, built in input
order, with asyncio.gather collecting the per-index results back in input
order whatever the completion order.  The per-sub-query pipeline
process_sub_query (search, scrape, compress - lines 100-132) is abstracted as
the function the stage applies to each sub-query; the semaphore wrapper
(lines 154-159) affects only scheduling, which the schedule parameter ranges
over.
-/

/-- The gather stage of LiteResearcher.conduct_research (lines 161-165):
results of the per-sub-query pipelines collected in input order under an
arbitrary completion schedule. -/
def conduct_research (process : String → String) (sub_queries : List String)
    (schedule : List Nat) : List String :=
  gatherScheduled process sub_queries schedule

/-!
The semaphore discipline of conduct_research (lines 154-159): every
sub-query pipeline body runs inside "async with semaphore", where the
semaphore is created with cfg.DEFAULT_CONCURRENCY_LIMIT slots.  The
acquire/release protocol is modelled as a labelled transition system over
the tasks' states: a pending task may start only while fewer than limit
tasks hold the semaphore, and a running task may finish at any time.
-/

/-- The phase of one sub-query task: not yet admitted by the semaphore,
running while holding it, or finished (slot released). -/
inductive TaskState where
  | pending
  | running
  | done
deriving DecidableEq

/-- Number of tasks currently holding the semaphore. -/
def runningCount (tasks : List TaskState) : Nat :=
  tasks.countP (fun t => t == TaskState.running)

/-- One scheduler step of the semaphore-governed batch: admit a pending task
when a slot is free, or finish a running task (releasing its slot). -/
inductive SemStep (limit : Nat) : List TaskState → List TaskState → Prop where
  | start (tasks : List TaskState) (i : Nat)
      (hp : tasks[i]? = some TaskState.pending)
      (hcap : runningCount tasks < limit) :
      SemStep limit tasks (tasks.set i TaskState.running)
  | finish (tasks : List TaskState) (i : Nat)
      (hr : tasks[i]? = some TaskState.running) :
      SemStep limit tasks (tasks.set i TaskState.done)

/-- States reachable by the semaphore-governed execution of n sub-query
tasks, starting with every task pending. -/
def SemReachable (limit n : Nat) (s : List TaskState) : Prop :=
  Relation.ReflTransGen (SemStep limit) (List.replicate n TaskState.pending) s

/-!
Concrete fixtures used to evaluate the definitions on explicit inputs.
-/

/-- A per-sub-query pipeline stub: the sub-query "beta" yields an empty
compressed context, the others a nonempty one. -/
def processCex : String → String :=
  fun q => if q = "beta" then "" else q ++ " context"

/-- A 300-character payload (the isolation scenario's good content). -/
def goodContent : String := String.mk (List.replicate 300 'a')

/-- A fetch oracle: the bad URL raises a connection error, every other URL
yields the 300-character payload. -/
def fetchCex : String → Except String String :=
  fun u =>
    if u = "https://bad.example" then Except.error "ConnectionError"
    else Except.ok goodContent

/-- A primary-search oracle whose call always raises a foreign (non-Tavily)
exception. -/
def tavilyDown : String → Nat → String → Except String (List TavilyResult) :=
  fun _ _ _ => Except.error "HTTPError"

/-- A secondary-search oracle returning one result for every call. -/
def ddgResults : String → Nat → Except String (List SearchResult) :=
  fun _ _ => Except.ok [{ href := "https://ddg.example", body := "snippet" }]

/-- A constructed TavilySearch instance for concrete search evaluations. -/
def tsFixture : TavilySearch :=
  { query := "quantum computing 2024", api_key := "key", topic := "general" }

/-- Identity chunker: each document is its own single chunk. -/
def splitId : Document → List Document := fun d => [d]

/-- An embeddings-filter verdict that rejects every chunk. -/
def keepNone : Document → Bool := fun _ => false

/-- One scraped page for concrete compressor evaluations. -/
def pageFixture : Page :=
  { url := some "https://a.example", raw_content := some "scraped text", title := none }

/-- A response carrying a PNG payload. -/
def pngResponse : HttpResponse :=
  { status_error := false, contentType := "image/png", body := "PNG" }

/-- A response carrying a PDF payload. -/
def pdfResponse : HttpResponse :=
  { status_error := false, contentType := "application/PDF; charset=binary", body := "%PDF" }

/-- An extraction oracle that parses the payload and returns it as text. -/
def extractFixture : HttpResponse → Except String String :=
  fun r => Except.ok r.body

/-! Helper lemmas about the scheduled fan-out/fan-in model. -/

/-- filterMap only depends on the function's values on the list. -/
theorem filterMap_congr_of_mem {α β : Type} {l : List α} {g g' : α → Option β}
    (H : ∀ a ∈ l, g a = g' a) : l.filterMap g = l.filterMap g' := by
  induction l with
  | nil => rfl
  | cons a l ih =>
    rw [List.filterMap_cons, List.filterMap_cons, H a (List.mem_cons_self a l),
      ih (fun b hb => H b (List.mem_cons_of_mem a hb))]

/-- Reading every index of a list in order through getElem? recovers the
mapped list. -/
theorem range_filterMap_getElem {α β : Type} (l : List α) (f : α → β) :
    (List.range l.length).filterMap (fun i => (l[i]?).map f) = l.map f := by
  induction l with
  | nil => rfl
  | cons a l ih =>
    rw [List.length_cons, List.range_succ_eq_map, List.filterMap_cons]
    simp only [List.getElem?_cons_zero, Option.map_some', List.filterMap_map]
    rw [List.map_cons]
    congr 1
    have : ((fun i => ((a :: l)[i]?).map f) ∘ Nat.succ)
        = fun i => (l[i]?).map f := by
      funext i
      simp [List.getElem?_cons_succ]
    rw [this, ih]

/-- Every entry of the completion log records the value computed from the
input at its own index. -/
theorem mem_runTasks {α β : Type} {f : α → β} {inputs : List α}
    {schedule : List Nat} {p : Nat × β} (hp : p ∈ runTasks f inputs schedule) :
    ∃ x, inputs[p.1]? = some x ∧ p.2 = f x := by
  obtain ⟨i, hi, hfi⟩ := List.mem_filterMap.mp hp
  cases hx : inputs[i]? with
  | none => rw [hx] at hfi; simp at hfi
  | some x =>
    rw [hx] at hfi
    simp only [Option.map_some', Option.some.injEq] at hfi
    subst hfi
    exact ⟨x, hx, rfl⟩

/-- Looking a scheduled task's index up in the completion log yields exactly
the value computed from that index's input, whenever the index was scheduled. -/
theorem runTasks_find? {α β : Type} {f : α → β} {inputs : List α}
    {schedule : List Nat} {i : Nat} {x : α} (hx : inputs[i]? = some x)
    (hs : i ∈ schedule) :
    (runTasks f inputs schedule).find? (fun p => p.1 == i) = some (i, f x) := by
  have hmem : (i, f x) ∈ runTasks f inputs schedule := by
    refine List.mem_filterMap.mpr ⟨i, hs, ?_⟩
    rw [hx]; rfl
  have hsome : ((runTasks f inputs schedule).find? (fun p => p.1 == i)).isSome :=
    List.find?_isSome.mpr ⟨(i, f x), hmem, by simp⟩
  obtain ⟨p, hp⟩ := Option.isSome_iff_exists.mp hsome
  have hpi : p.1 = i := by
    have := List.find?_some hp
    simpa using this
  obtain ⟨y, hy, hpy⟩ := mem_runTasks (List.mem_of_find?_eq_some hp)
  rw [hpi, hx] at hy
  have hyx : y = x := by injection hy with h; exact h.symm
  subst hyx
  rw [hp]
  have : p = (i, f y) := by
    apply Prod.ext hpi
    exact hpy
  rw [this]

/-- Main fan-out/fan-in theorem: whenever every task index completes exactly
once (the schedule is a permutation of the input indices), the collected
output is the in-order image of the inputs, whatever the completion order. -/
theorem gatherScheduled_perm {α β : Type} (f : α → β) (inputs : List α)
    (schedule : List Nat)
    (h : schedule.Perm (List.range inputs.length)) :
    gatherScheduled f inputs schedule = inputs.map f := by
  have H : ∀ i ∈ List.range inputs.length,
      ((runTasks f inputs schedule).find? (fun p => p.1 == i)).map
          (fun p => p.2)
        = (inputs[i]?).map f := by
    intro i hi
    have hlt : i < inputs.length := List.mem_range.mp hi
    have hx : inputs[i]? = some inputs[i] := List.getElem?_eq_getElem hlt
    have hs : i ∈ schedule := h.mem_iff.mpr hi
    rw [runTasks_find? hx hs, hx]
    rfl
  exact (filterMap_congr_of_mem H).trans (range_filterMap_getElem inputs f)

/-- Every element of the collected fan-in output is the value computed from
some input element. -/
theorem mem_gatherScheduled {α β : Type} {f : α → β} {inputs : List α}
    {schedule : List Nat} {b : β} (hb : b ∈ gatherScheduled f inputs schedule) :
    ∃ x, b = f x := by
  obtain ⟨i, _, hfi⟩ := List.mem_filterMap.mp hb
  cases hfind : (runTasks f inputs schedule).find? (fun p => p.1 == i) with
  | none => rw [hfind] at hfi; simp at hfi
  | some p =>
    rw [hfind] at hfi
    simp only [Option.map_some', Option.some.injEq] at hfi
    obtain ⟨x, _, hpx⟩ := mem_runTasks (List.mem_of_find?_eq_some hfind)
    exact ⟨x, hfi ▸ hpx⟩

/-! Helper lemmas about the scraper. -/

/-- The per-link extraction always reports the link it was given. -/
theorem extract_data_from_link_url (fetch : String → Except String String)
    (m : Nat) (link : String) :
    (extract_data_from_link fetch m link).url = link := by
  unfold extract_data_from_link
  cases fetch link with
  | error e => rfl
  | ok content =>
    dsimp only
    split <;> rfl

/-- The per-link extraction depends on the fetcher only through its value at
the extracted link. -/
theorem extract_data_from_link_congr {fetch fetch' : String → Except String String}
    (m : Nat) (link : String) (h : fetch link = fetch' link) :
    extract_data_from_link fetch m link = extract_data_from_link fetch' m link := by
  unfold extract_data_from_link
  rw [h]

/-! Helper lemmas about the enumerate-and-cut formatting. -/

/-- Indices in an enumeration starting at k are at least k. -/
theorem fst_ge_of_mem_enumFrom {α : Type} {l : List α} {k : Nat} {p : Nat × α}
    (hp : p ∈ List.enumFrom k l) : k ≤ p.1 := by
  induction l generalizing k with
  | nil => simp at hp
  | cons a l ih =>
    rw [List.enumFrom_cons] at hp
    rcases List.mem_cons.mp hp with h | h
    · rw [h]
    · exact Nat.le_of_succ_le (ih h)

/-- Keeping the enumeration entries whose index is below k + n keeps exactly
the first n entries. -/
theorem enumFrom_filter_lt_eq_take {α : Type} (l : List α) (k n : Nat) :
    (List.enumFrom k l).filter (fun p => decide (p.1 < k + n))
      = List.enumFrom k (l.take n) := by
  induction l generalizing k n with
  | nil => simp
  | cons a l ih =>
    cases n with
    | zero =>
      rw [List.take_zero]
      apply List.filter_eq_nil_iff.mpr
      intro p hp
      rw [List.enumFrom_cons] at hp
      rcases List.mem_cons.mp hp with h | h
      · rw [h]; simp
      · have hk : k + 1 ≤ p.1 := fst_ge_of_mem_enumFrom h
        simp only [decide_eq_true_eq]
        omega
    | succ n =>
      have hlt : k < k + (n + 1) := by omega
      rw [List.enumFrom_cons, List.filter_cons]
      simp only [hlt, decide_true_eq_true, decide_eq_true_eq, if_pos]
      rw [List.take_succ_cons, List.enumFrom_cons]
      congr 1
      have heq : (fun p : Nat × α => decide (p.1 < k + (n + 1)))
          = fun p : Nat × α => decide (p.1 < (k + 1) + n) := by
        funext p
        exact decide_eq_decide.mpr (by omega)
      rw [heq]
      exact ih (k + 1) n

/-- pretty_print_docs renders exactly the first top_n documents, in
encounter order. -/
theorem pretty_print_docs_eq_take (docs : List Document) (top_n : Nat) :
    pretty_print_docs docs top_n
      = String.intercalate "\n" ((docs.take top_n).map formatDoc) := by
  unfold pretty_print_docs
  have h0 : docs.enum = List.enumFrom 0 docs := rfl
  have hn : (fun p : Nat × Document => decide (p.1 < top_n))
      = fun p : Nat × Document => decide (p.1 < 0 + top_n) := by
    funext p
    exact decide_eq_decide.mpr (by omega)
  rw [h0, hn, enumFrom_filter_lt_eq_take]
  have hmap : (fun p : Nat × Document => formatDoc p.2)
      = formatDoc ∘ Prod.snd := rfl
  rw [hmap, ← List.map_map, List.enumFrom_map_snd]

/-! Helper lemmas about the semaphore transition system. -/

/-- Overwriting a slot with an element the predicate rejects cannot increase
the count. -/
theorem countP_set_of_neg {α : Type} (p : α → Bool) (l : List α) (i : Nat)
    (a : α) (ha : p a = false) : (l.set i a).countP p ≤ l.countP p := by
  induction l generalizing i with
  | nil => simp
  | cons b l ih =>
    cases i with
    | zero =>
      rw [List.set_cons_zero, List.countP_cons, List.countP_cons, ha]
      simp only [if_neg Bool.false_ne_true, Nat.add_zero]
      split
      · omega
      · omega
    | succ i =>
      rw [List.set_cons_succ, List.countP_cons, List.countP_cons]
      exact Nat.add_le_add_right (ih i) _

/-- Overwriting a rejected slot with an accepted element increases the count
by exactly one. -/
theorem countP_set_of_flip {α : Type} (p : α → Bool) (l : List α) (i : Nat)
    (a b : α) (hb : l[i]? = some b) (hpb : p b = false) (hpa : p a = true) :
    (l.set i a).countP p = l.countP p + 1 := by
  induction l generalizing i with
  | nil => simp at hb
  | cons c l ih =>
    cases i with
    | zero =>
      have hcb : c = b := by
        rw [List.getElem?_cons_zero] at hb
        injection hb
      rw [List.set_cons_zero, List.countP_cons, List.countP_cons, hpa, hcb, hpb]
      simp
    | succ i =>
      rw [List.getElem?_cons_succ] at hb
      rw [List.set_cons_succ, List.countP_cons, List.countP_cons, ih i hb]
      omega

/-- A single semaphore step keeps the number of admitted tasks at or below
the limit. -/
theorem semStep_preserves_bound {limit : Nat} {s s' : List TaskState}
    (h : SemStep limit s s') (hs : runningCount s ≤ limit) :
    runningCount s' ≤ limit := by
  cases h with
  | start i hp hcap =>
    have hincr : (s.set i TaskState.running).countP
          (fun t => t == TaskState.running)
        = s.countP (fun t => t == TaskState.running) + 1 :=
      countP_set_of_flip _ s i TaskState.running TaskState.pending hp
        (by decide) (by decide)
    unfold runningCount at hcap ⊢
    omega
  | finish i hr =>
    have hdecr := countP_set_of_neg (fun t => t == TaskState.running) s i
      TaskState.done (by decide)
    unfold runningCount at hs ⊢
    omega

/-- Before any task is admitted, nothing holds the semaphore. -/
theorem runningCount_replicate_pending (n : Nat) :
    runningCount (List.replicate n TaskState.pending) = 0 := by
  unfold runningCount
  induction n with
  | zero => rfl
  | succ n ih => rw [List.replicate_succ, List.countP_cons, ih]; rfl

/-! Helper lemma for per-URL fault independence. -/

/-- Changing the fetcher only at one URL leaves the filtered results for all
other URLs unchanged. -/
theorem map_extract_filter_ne {fetch fetch' : String → Except String String}
    (m : Nat) (X : String) (h : ∀ u, u ≠ X → fetch u = fetch' u)
    (urls : List String) :
    ((urls.map (fun link => extract_data_from_link fetch m link)).filter
        (fun r => r.raw_content.isSome)).filter (fun r => !(r.url == X))
      = ((urls.map (fun link => extract_data_from_link fetch' m link)).filter
          (fun r => r.raw_content.isSome)).filter (fun r => !(r.url == X)) := by
  induction urls with
  | nil => rfl
  | cons u urls ih =>
    rw [List.filter_filter, List.filter_filter, List.map_cons, List.map_cons,
      List.filter_cons, List.filter_cons]
    by_cases hu : u = X
    · have hXl : (!((extract_data_from_link fetch m u).url == X)) = false := by
        rw [extract_data_from_link_url, hu]
        simp
      have hXr : (!((extract_data_from_link fetch' m u).url == X)) = false := by
        rw [extract_data_from_link_url, hu]
        simp
      rw [Bool.and_comm] at *
      simp only [hXl, hXr, Bool.false_and, if_neg Bool.false_ne_true]
      rw [List.filter_filter, List.filter_filter] at ih
      simpa [Bool.and_comm] using ih
    · have hsame := extract_data_from_link_congr m u (h u hu)
      rw [hsame]
      rw [List.filter_filter, List.filter_filter] at ih
      rw [ih]

/-! Claim theorems. -/

/-- C1: for every list of sub-queries and every completion order of the
gathered pipelines (any permutation of the task indices), conduct_research
returns exactly one compressed context per sub-query, with slot i holding the
context the pipeline produced for sub-query i - the pipeline function is
arbitrary, so the invariant covers sub-queries whose context is empty. -/
theorem conduct_research_length_and_order (process : String → String)
    (sub_queries : List String) (schedule : List Nat)
    (h : schedule.Perm (List.range sub_queries.length)) :
    (conduct_research process sub_queries schedule).length = sub_queries.length
    ∧ ∀ i : Nat, i < sub_queries.length →
        (conduct_research process sub_queries schedule)[i]?
          = (sub_queries[i]?).map process := by
  have hmap : conduct_research process sub_queries schedule
      = sub_queries.map process :=
    gatherScheduled_perm process sub_queries schedule h
  constructor
  · rw [hmap, List.length_map]
  · intro i _
    rw [hmap, List.getElem?_map]

/-- Witness for C1: three sub-queries completing in the order 2, 0, 1, the
second producing an empty context, still give three slots in input order. -/
theorem conduct_research_length_and_order_witness :
    (conduct_research processCex ["alpha", "beta", "gamma"] [2, 0, 1]).length = 3
    ∧ (conduct_research processCex ["alpha", "beta", "gamma"] [2, 0, 1])[1]?
        = some "" := by
  have h := conduct_research_length_and_order processCex ["alpha", "beta", "gamma"]
    [2, 0, 1] (by decide)
  refine ⟨h.1, ?_⟩
  rw [h.2 1 (by decide)]
  rfl

/-- C10: whatever order the per-URL fetches complete in, Scraper.run returns
the order-preserving sublist, keyed to the input URL order, of the per-URL
results that passed the content filter. -/
theorem scraper_run_preserves_input_order
    (fetch : String → Except String String) (config : Option Config)
    (urls : List String) (schedule : List Nat)
    (h : schedule.Perm (List.range urls.length)) :
    Scraper.run fetch config urls schedule
      = (urls.map (fun link =>
            extract_data_from_link fetch (Scraper.minLength config) link)).filter
          (fun r => r.raw_content.isSome) := by
  unfold Scraper.run
  rw [gatherScheduled_perm
    (fun link => extract_data_from_link fetch (Scraper.minLength config) link)
    urls schedule h]

/-- Witness for C10: a two-URL batch completing in reverse order still
yields the in-order filtered results. -/
theorem scraper_run_preserves_input_order_witness :
    Scraper.run fetchCex none ["https://bad.example", "https://good.example"] [1, 0]
      = (["https://bad.example", "https://good.example"].map (fun link =>
            extract_data_from_link fetchCex (Scraper.minLength none) link)).filter
          (fun r => r.raw_content.isSome) :=
  scraper_run_preserves_input_order fetchCex none
    ["https://bad.example", "https://good.example"] [1, 0] (by decide)

/-- C4: every document Scraper.run returns carries present content of length
at least the configured minimum; the minimum is MIN_CONTENT_LENGTH under a
built configuration and 100 without one, and MIN_CONTENT_LENGTH is 100.
Shorter extractions are dropped, not returned empty. -/
theorem scraper_content_length_filter :
    (∀ (fetch : String → Except String String) (config : Option Config)
        (urls : List String) (schedule : List Nat) (r : ScrapeResult),
        r ∈ Scraper.run fetch config urls schedule →
        ∃ c, r.raw_content = some c ∧ Scraper.minLength config ≤ c.length)
    ∧ (∀ ua : String,
        Scraper.minLength (some (Config.build ua)) = constants.MIN_CONTENT_LENGTH)
    ∧ constants.MIN_CONTENT_LENGTH = 100 := by
  refine ⟨?_, fun ua => rfl, rfl⟩
  intro fetch config urls schedule r hr
  obtain ⟨hmem, hpred⟩ := List.mem_filter.mp hr
  obtain ⟨u, hu⟩ := mem_gatherScheduled hmem
  rw [hu] at hpred ⊢
  revert hpred
  unfold extract_data_from_link
  cases hf : fetch u with
  | error e => intro hpred; simp at hpred
  | ok content =>
    dsimp only
    by_cases hlen : content.length < Scraper.minLength config
    · rw [if_pos hlen]
      intro hpred
      simp at hpred
    · rw [if_neg hlen]
      intro _
      exact ⟨content, rfl, Nat.le_of_not_lt hlen⟩

/-- Witness for C4: the good URL's document, a member of a concrete run's
output, carries its 300-character content, above the default minimum. -/
theorem scraper_content_length_filter_witness :
    ∃ c, (ScrapeResult.mk "https://good.example" (some goodContent)).raw_content
          = some c
      ∧ Scraper.minLength none ≤ c.length :=
  scraper_content_length_filter.1 fetchCex none ["https://good.example"] [0]
    { url := "https://good.example", raw_content := some goodContent } (by decide)

/-- C3: a fetch exception is caught at its URL's boundary and becomes an
absent-content marker for that URL alone; changing the fetcher's behavior at
one URL never changes the returned documents for the other URLs; and in the
two-URL scenario - one URL raising, the other fetching content of at least
the configured minimum length - the batch returns exactly one document, for
the good URL. -/
theorem scraper_fault_isolation :
    (∀ (fetch : String → Except String String) (m : Nat) (link e : String),
        fetch link = Except.error e →
        extract_data_from_link fetch m link
          = { url := link, raw_content := none })
    ∧ (∀ (fetch fetch' : String → Except String String) (config : Option Config)
          (urls : List String) (schedule : List Nat) (X : String),
        (∀ u, u ≠ X → fetch u = fetch' u) →
        schedule.Perm (List.range urls.length) →
        (Scraper.run fetch config urls schedule).filter (fun r => !(r.url == X))
          = (Scraper.run fetch' config urls schedule).filter
              (fun r => !(r.url == X)))
    ∧ (∀ (fetch : String → Except String String) (bad good e content : String)
          (cfg : Config) (schedule : List Nat),
        fetch bad = Except.error e →
        fetch good = Except.ok content →
        cfg.MIN_CONTENT_LENGTH ≤ content.length →
        schedule.Perm (List.range 2) →
        scrape_urls fetch [bad, good] cfg schedule
          = [{ url := good, raw_content := some content }]) := by
  refine ⟨?_, ?_, ?_⟩
  · intro fetch m link e h
    unfold extract_data_from_link
    rw [h]
  · intro fetch fetch' config urls schedule X hagree hperm
    unfold Scraper.run
    rw [gatherScheduled_perm
        (fun link => extract_data_from_link fetch (Scraper.minLength config) link)
        urls schedule hperm,
      gatherScheduled_perm
        (fun link => extract_data_from_link fetch' (Scraper.minLength config) link)
        urls schedule hperm]
    exact map_extract_filter_ne (Scraper.minLength config) X hagree urls
  · intro fetch bad good e content cfg schedule hbad hgood hlen hperm
    unfold scrape_urls Scraper.run
    rw [gatherScheduled_perm
      (fun link =>
        extract_data_from_link fetch (Scraper.minLength (some cfg)) link)
      [bad, good] schedule hperm]
    have h1 : extract_data_from_link fetch (Scraper.minLength (some cfg)) bad
        = { url := bad, raw_content := none } := by
      unfold extract_data_from_link
      rw [hbad]
    have h2 : extract_data_from_link fetch (Scraper.minLength (some cfg)) good
        = { url := good, raw_content := some content } := by
      unfold extract_data_from_link
      rw [hgood]
      dsimp only
      have hnot : ¬ content.length < Scraper.minLength (some cfg) :=
        Nat.not_lt.mpr hlen
      rw [if_neg hnot]
    rw [List.map_cons, List.map_cons, List.map_nil, h1, h2]
    rfl

/-- Witness for C3: concretely, the raising URL yields an absent marker, and
the two-URL batch (completing in reverse order) returns exactly the good
document. -/
theorem scraper_fault_isolation_witness :
    extract_data_from_link fetchCex 100 "https://bad.example"
        = { url := "https://bad.example", raw_content := none }
    ∧ scrape_urls fetchCex ["https://bad.example", "https://good.example"]
          (Config.build "Mozilla/5.0") [1, 0]
        = [{ url := "https://good.example", raw_content := some goodContent }] :=
  ⟨scraper_fault_isolation.1 fetchCex 100 "https://bad.example" "ConnectionError"
      rfl,
    scraper_fault_isolation.2.2 fetchCex "https://bad.example"
      "https://good.example" "ConnectionError" goodContent
      (Config.build "Mozilla/5.0") [1, 0] rfl rfl (by decide) (by decide)⟩

/-- C5: get_context assembles its result from at most max_results surviving
chunks, taken in encounter order (the prefix of the pipeline's output, no
re-sort), each rendered as the block
Source: url, newline, Title: title, newline, Content: text, newline - the
blocks joined in sequence. -/
theorem get_context_max_results_cap (split : Document → List Document)
    (keep : Document → Bool) (documents : List Page) (max_results : Nat) :
    ContextCompressor.get_context split keep documents max_results
      = String.intercalate "\n"
          (((contextualRetrieverInvoke split keep documents).take
              max_results).map
            (fun d => "Source: " ++ d.source ++ "\n" ++ "Title: " ++ d.title
              ++ "\n" ++ "Content: " ++ d.page_content ++ "\n"))
    ∧ ((contextualRetrieverInvoke split keep documents).take max_results).length
        ≤ max_results := by
  constructor
  · unfold ContextCompressor.get_context
    rw [pretty_print_docs_eq_take]
    rfl
  · rw [List.length_take]
    exact Nat.min_le_left _ _

/-- C6: an empty document list, and more generally any input on which zero
chunks survive the pipeline, makes get_context return the empty string - a
value, not an exception. -/
theorem get_context_empty_is_valid :
    (∀ (split : Document → List Document) (keep : Document → Bool)
        (max_results : Nat),
        ContextCompressor.get_context split keep [] max_results = "")
    ∧ (∀ (split : Document → List Document) (keep : Document → Bool)
          (documents : List Page) (max_results : Nat),
        contextualRetrieverInvoke split keep documents = [] →
        ContextCompressor.get_context split keep documents max_results = "") := by
  constructor
  · intro split keep max_results
    rfl
  · intro split keep documents max_results h
    unfold ContextCompressor.get_context
    rw [h]
    rfl

/-- Witness for C6: a nonempty page whose only chunk the similarity filter
rejects yields "", as does the empty document list. -/
theorem get_context_empty_is_valid_witness :
    ContextCompressor.get_context splitId keepNone [pageFixture] 5 = ""
    ∧ ContextCompressor.get_context splitId keepNone [] 5 = "" :=
  ⟨get_context_empty_is_valid.2 splitId keepNone [pageFixture] 5 rfl,
    get_context_empty_is_valid.1 splitId keepNone 5⟩

/-- Counterexample for C2: the primary provider returns an empty result set
while the secondary has results, yet search raises the no-results
TavilyAPIError to its caller instead of falling back. -/
theorem search_empty_primary_raises_cex :
    TavilySearch.search (fun _ _ _ => Except.ok []) ddgResults tsFixture 7
      = Except.error "Tavily API search found no results." := rfl

/-- C2 amended: a foreign (non-TavilyAPIError) exception from the primary
provider triggers the fallback, invoked with the same query and result cap;
a secondary failure degrades to the empty list and a secondary success is
returned as-is, empty or not.  An empty primary result set, however, raises
TavilyAPIError to the caller rather than falling back. -/
theorem search_fallback_behavior
    (tavilyApi : String → Nat → String → Except String (List TavilyResult))
    (ddgApi : String → Nat → Except String (List SearchResult))
    (ts : TavilySearch) (max_results : Nat) :
    (∀ e, tavilyApi ts.query max_results ts.topic = Except.error e →
        TavilySearch.search tavilyApi ddgApi ts max_results
          = match ddgApi ts.query max_results with
            | Except.ok results => Except.ok results
            | Except.error _ => Except.ok [])
    ∧ (tavilyApi ts.query max_results ts.topic = Except.ok [] →
        TavilySearch.search tavilyApi ddgApi ts max_results
          = Except.error "Tavily API search found no results.") := by
  constructor
  · intro e he
    unfold TavilySearch.search
    rw [he]
  · intro h0
    unfold TavilySearch.search
    rw [h0]
    rfl

/-- Witness for C2 (amended): with a primary that raises an HTTP error, the
secondary's results come back to the caller. -/
theorem search_fallback_behavior_witness :
    TavilySearch.search tavilyDown ddgResults tsFixture 7
      = Except.ok [{ href := "https://ddg.example", body := "snippet" }] :=
  (search_fallback_behavior tavilyDown ddgResults tsFixture 7).1 "HTTPError" rfl

/-- Counterexample for C7: a response with the non-HTML content type
image/png is not skipped - the payload is handed to the parser and its
extracted text is returned, so scrape does not return the empty string. -/
theorem scrape_non_pdf_parsed_cex :
    BeautifulSoupScraper.scrape (Except.ok pngResponse) extractFixture ≠ "" := by
  decide

/-- C7 amended: only a Content-Type containing application/pdf
(case-insensitively) short-circuits to the empty string, for every
extraction oracle - the parser is never consulted; any other content type on
a healthy response has its payload parsed, the extracted text being
normalised and returned. -/
theorem scrape_pdf_skip :
    (∀ (response : HttpResponse) (extract : HttpResponse → Except String String),
        pyContains (pyLower response.contentType) "application/pdf" = true →
        BeautifulSoupScraper.scrape (Except.ok response) extract = "")
    ∧ (∀ (response : HttpResponse)
          (extract : HttpResponse → Except String String) (raw : String),
        response.status_error = false →
        pyContains (pyLower response.contentType) "application/pdf" = false →
        extract response = Except.ok raw →
        BeautifulSoupScraper.scrape (Except.ok response) extract
          = normalizeText raw) := by
  constructor
  · intro response extract h
    cases hsv : response.status_error with
    | true => simp [BeautifulSoupScraper.scrape, hsv]
    | false => simp [BeautifulSoupScraper.scrape, hsv, h]
  · intro response extract raw hs hct hex
    simp [BeautifulSoupScraper.scrape, hs, hct, hex]

/-- Witness for C7 (amended): a PDF response (mixed-case content type) is
skipped with an empty string even though its extraction oracle would return
text. -/
theorem scrape_pdf_skip_witness :
    BeautifulSoupScraper.scrape (Except.ok pdfResponse) extractFixture = "" :=
  scrape_pdf_skip.1 pdfResponse extractFixture (by decide)

/-- C8: constructing the primary search provider with credentials in neither
the supplied headers nor the environment yields the configuration error at
construction time - no TavilySearch value exists on which a search could
later run, so the failure is neither silent nor deferred. -/
theorem tavily_init_missing_key_raises (query topic : String)
    (headers_key env_key : Option String)
    (h1 : pyTruthy headers_key = false) (h2 : pyTruthy env_key = false) :
    TavilySearch.init query headers_key env_key topic
      = Except.error
          "Tavily API key not found. Please set TAVILY_API_KEY environment variable." := by
  cases env_key with
  | none =>
    simp [TavilySearch.init, get_api_key, h1]
  | some t =>
    have ht : t = "" := by
      simpa [pyTruthy] using h2
    subst ht
    simp [TavilySearch.init, get_api_key, h1]

/-- Witness for C8: no header key and no environment key gives the
construction-time error. -/
theorem tavily_init_missing_key_raises_witness :
    TavilySearch.init "climate change" none none "general"
      = Except.error
          "Tavily API key not found. Please set TAVILY_API_KEY environment variable." :=
  tavily_init_missing_key_raises "climate change" "general" none none rfl rfl

/-- C9: under the semaphore discipline wrapped around every sub-query
pipeline in conduct_research, every reachable state of the task batch has at
most DEFAULT_CONCURRENCY_LIMIT pipelines admitted simultaneously, for any
number of sub-queries. -/
theorem semaphore_concurrency_bound (n : Nat) (s : List TaskState)
    (h : SemReachable constants.DEFAULT_CONCURRENCY_LIMIT n s) :
    runningCount s ≤ constants.DEFAULT_CONCURRENCY_LIMIT := by
  unfold SemReachable at h
  induction h with
  | refl =>
    rw [runningCount_replicate_pending]
    exact Nat.zero_le _
  | tail _ hstep ih =>
    exact semStep_preserves_bound hstep ih

/-- Witness for C9: the state where the first of three tasks has been
admitted is reachable and respects the bound. -/
theorem semaphore_concurrency_bound_witness :
    runningCount [TaskState.running, TaskState.pending, TaskState.pending]
      ≤ constants.DEFAULT_CONCURRENCY_LIMIT :=
  semaphore_concurrency_bound 3
    [TaskState.running, TaskState.pending, TaskState.pending]
    (Relation.ReflTransGen.single
      (SemStep.start (List.replicate 3 TaskState.pending) 0 rfl (by decide)))

